import Mathlib

/-!
Verification of the StreamRadar polling/notification core against its
design specification.  The Python source is embedded shallowly: each
relevant method becomes a pure Lean function over explicit state, network
interactions become data describing the observed responses, and raised
exceptions become `Except` values that the embedded `try/except` blocks
consume exactly where the source consumes them.
-/

namespace StreamRadar

/-! ## String helpers

Python's `needle in hay` substring test, `str.lower()` (ASCII, which is
all the source ever compares), and `str.split(':')`, implemented over
`List Char` so that every proof can evaluate them by `decide`. -/

/-- True when `pat` is an initial segment of `l` (one alignment of Python's
substring scan). -/
def leadEq : List Char → List Char → Bool
  | [], _ => true
  | _ :: _, [] => false
  | a :: as, b :: bs => a == b && leadEq as bs

/-- True when `pat` occurs contiguously anywhere in `l`. -/
def subOccurs (pat : List Char) : List Char → Bool
  | [] => leadEq pat []
  | c :: cs => leadEq pat (c :: cs) || subOccurs pat cs

/-- Python's `needle in hay` on strings. -/
def strContains (hay needle : String) : Bool :=
  subOccurs needle.data hay.data

/-- ASCII lowering of one character, as `str.lower` acts on the ASCII
letters the source compares. -/
def lowerChar (c : Char) : Char :=
  if 65 ≤ c.toNat ∧ c.toNat ≤ 90 then Char.ofNat (c.toNat + 32) else c

/-- ASCII `str.lower`. -/
def lowerStr (s : String) : String :=
  ⟨s.data.map lowerChar⟩

/-- Python's `s.split(sep)` for a one-character separator: splits at every
occurrence and keeps empty fields. -/
def splitOnChar (sep : Char) : List Char → List (List Char)
  | [] => [[]]
  | c :: cs =>
    match splitOnChar sep cs with
    | [] => if c == sep then [[], []] else [[c]]
    | cur :: rest => if c == sep then [] :: cur :: rest else (c :: cur) :: rest

/-- Python split on a colon, as used on task keys. -/
def splitColon (s : String) : List String :=
  (splitOnChar ':' s.data).map (fun l => ⟨l⟩)

/-- Python truthiness of an optional string (`if error:`): `None` and the
empty string are falsy. -/
def strTruthy : Option String → Bool
  | none => false
  | some s => s ≠ ""

/-- The case-insensitive "user not found" test the service applies to
probe error messages. -/
def isUserNotFound (msg : String) : Bool :=
  strContains (lowerStr msg) "user not found"

/-! ## `NotificationService.check_stream_loop` (notification_service.py 111-202)

One loop iteration ("tick") observes the value produced by
`platform.is_stream_live` — a dict, a bare boolean, or a raised
exception — and updates the per-task `StreamCheckStatus`.  Side effects
(dispatching the notification, the write-through persist, deactivating
the configuration, the sleep that ends the tick) are returned as data. -/

/-- The per-task mutable status (`StreamCheckStatus`, notification_service.py
23-33); timestamps are omitted, counters and liveness kept. -/
structure LoopStatus where
  is_live : Bool
  consecutive_errors : Nat
  error_count : Nat
  success_count : Nat
  last_error : Option String
  deriving Repr, DecidableEq

/-- The value `check_stream_loop` receives from `platform.is_stream_live`:
a dict (with optional `is_live` and `error` keys), a bare boolean, or an
exception raised by the call. -/
inductive CheckOutcome
  | dict (is_live : Option Bool) (error : Option String)
  | plain (b : Bool)
  | raised (msg : String)
  deriving Repr, DecidableEq

/-- Observable effects of one tick of `check_stream_loop`. -/
structure TickResult where
  status : LoopStatus
  /-- True when `handle_stream_state_change` was invoked (the notification dispatch). -/
  notified : Bool
  /-- value written through by `save_stream_state`, when the tick persisted. -/
  persisted : Option Bool
  /-- error message passed to `update_configuration_status(..., False, msg)`. -/
  deactivation : Option String
  /-- seconds slept at the end of the tick (`none` when the loop breaks). -/
  sleep : Option Nat
  /-- the `break` that ends the task's loop. -/
  stopped : Bool
  deriving Repr, DecidableEq

/-- Success path of a tick (notification_service.py 160-192): reset
`consecutive_errors`, detect the offline→live edge against the previous
`status.is_live`, store the observed liveness, persist it, sleep 30s. -/
def successArm (st : LoopStatus) (current : Bool) : TickResult :=
  { status := { st with
      is_live := current
      consecutive_errors := 0
      success_count := st.success_count + 1 }
    notified := current && !st.is_live
    persisted := some current
    deactivation := none
    sleep := some 30
    stopped := false }

/-- Error path of a tick (notification_service.py 194-202 plus
`handle_check_error` 230-263): bump the error counters, record the error,
deactivate on a "user not found" message, sleep
`min(30 * 2 ** consecutive_errors, 300)` with the already-incremented
counter. -/
def errorArm (st : LoopStatus) (msg : String) : TickResult :=
  { status := { st with
      consecutive_errors := st.consecutive_errors + 1
      error_count := st.error_count + 1
      last_error := some msg }
    notified := false
    persisted := none
    deactivation :=
      if isUserNotFound msg then some ("User not found: " ++ msg) else none
    sleep := some (min (30 * 2 ^ (st.consecutive_errors + 1)) 300)
    stopped := false }

/-- One tick of `check_stream_loop` (notification_service.py 136-202).
A dict result with a truthy error either deactivates the configuration and
breaks (on "user not found") or re-raises into the error path; otherwise
the observed liveness is `is_live` (default `False`) for a dict and
`bool(check_result)` for a bare value. -/
def tick (st : LoopStatus) (r : CheckOutcome) : TickResult :=
  match r with
  | .raised msg => errorArm st msg
  | .plain b => successArm st b
  | .dict il err =>
    if strTruthy err then
      let e := err.getD ""
      if isUserNotFound e then
        { status := st
          notified := false
          persisted := none
          deactivation := some ("User not found: " ++ e)
          sleep := none
          stopped := true }
      else errorArm st e
    else successArm st (il.getD false)

/-- Runs `check_stream_loop` over a list of probe outcomes, stopping at a
tick that breaks; returns the tick trace. -/
def runLoop (st : LoopStatus) : List CheckOutcome → List TickResult
  | [] => []
  | r :: rs =>
    let t := tick st r
    if t.stopped then [t] else t :: runLoop t.status rs

/-- Initial `StreamCheckStatus` for a task, with `status.is_live` seeded
from the persisted row as `previous_state.get('is_live', False)`
(notification_service.py 131-133); `prev` is the row's optional `is_live`
field. -/
def initialLoopStatus (prev : Option Bool) : LoopStatus :=
  { is_live := prev.getD false
    consecutive_errors := 0
    error_count := 0
    success_count := 0
    last_error := none }

/-! ## The configuration tables (database_service.py)

`stream_configs` rows carry the `(guild_id, platform, username)` key, the
stored message (standing for the remaining payload columns), and the
activity flag with its error message; `stream_status` rows carry the
persisted liveness per key. -/

/-- One `stream_configs` row. -/
structure ConfigRow where
  guild_id : Nat
  platform : String
  username : String
  profile_url : String
  message : String
  is_active : Bool
  error_message : Option String
  deriving Repr, DecidableEq

/-- The `(guild_id, platform, username)` uniqueness key. -/
def ConfigRow.sameKey (a b : ConfigRow) : Bool :=
  a.guild_id == b.guild_id && a.platform == b.platform && a.username == b.username

/-- One `stream_status` row: persisted liveness for a key. -/
structure StatusRow where
  guild_id : Nat
  platform : String
  username : String
  is_live : Bool
  deriving Repr, DecidableEq

/-- Key match of a `stream_status` row. -/
def StatusRow.keyIs (r : StatusRow) (g : Nat) (p u : String) : Bool :=
  r.guild_id == g && r.platform == p && r.username == u

/-- Embedding of `SQLiteDatabase.save` (database_service.py 122-140): a plain `INSERT`
into a table whose primary key is `(guild_id, platform, username)`; the
integrity error on a duplicate key is caught and turned into `False`,
leaving the table unchanged. -/
def sqliteSave (t : List ConfigRow) (cfg : ConfigRow) : List ConfigRow × Bool :=
  if t.any (fun r => r.sameKey cfg) then (t, false) else (t ++ [cfg], true)

/-- Embedding of `SQLiteDatabase.get_all` (database_service.py 160-173):
`SELECT * FROM stream_configs WHERE is_active = TRUE`. -/
def sqliteGetAll (t : List ConfigRow) : List ConfigRow :=
  t.filter (fun r => r.is_active)

/-- Embedding of `DatabaseService.add_stream_config` (database_service.py 286-304):
`INSERT OR REPLACE` keyed on `UNIQUE(guild_id, platform, username)` — an
existing row with the same key is deleted and the new row inserted. -/
def addStreamConfig (t : List ConfigRow) (cfg : ConfigRow) : List ConfigRow :=
  (t.filter (fun r => !r.sameKey cfg)) ++ [cfg]

/-- Embedding of `DatabaseService.delete_configuration` (database_service.py 380-403):
returns `False` without touching anything when no row has the key,
otherwise deletes the config row and its status row and returns `True`. -/
def deleteConfiguration (configs : List ConfigRow) (statuses : List StatusRow)
    (g : Nat) (p u : String) : List ConfigRow × List StatusRow × Bool :=
  if configs.any (fun r => r.guild_id == g && r.platform == p && r.username == u) then
    (configs.filter (fun r => !(r.guild_id == g && r.platform == p && r.username == u)),
     statuses.filter (fun r => !r.keyIs g p u),
     true)
  else
    (configs, statuses, false)

/-- Embedding of `DatabaseService.save_stream_state` (database_service.py 306-316):
upsert of the persisted liveness for a key. -/
def saveStreamState (statuses : List StatusRow) (g : Nat) (p u : String)
    (live : Bool) : List StatusRow :=
  if statuses.any (fun r => r.keyIs g p u) then
    statuses.map (fun r => if r.keyIs g p u then { r with is_live := live } else r)
  else
    statuses ++ [⟨g, p, u, live⟩]

/-- Embedding of `DatabaseService.get_stream_status` (database_service.py 329-337):
the persisted row for a key, or `None`. -/
def getStreamStatus (statuses : List StatusRow) (g : Nat) (p u : String) :
    Option StatusRow :=
  statuses.find? (fun r => r.keyIs g p u)

/-- Embedding of `DatabaseService.update_configuration_status` (database_service.py
318-327): set `is_active` and `error_message` on the row with the key. -/
def updateConfigurationStatus (configs : List ConfigRow) (g : Nat) (p u : String)
    (active : Bool) (msg : Option String) : List ConfigRow :=
  configs.map (fun r =>
    if r.guild_id == g && r.platform == p && r.username == u then
      { r with is_active := active, error_message := msg }
    else r)

/-- Modelled from the spec: the `ConfigurationService` variant that
`NotificationService` is wired to (taking a `db_service`, exposing
`update_configuration_status(guild_id, profile_url, is_active, error)`)
is not under `src/`; per §4.1 (`update_activity`) it marks the watched
entry inactive with the error message, here keyed by
`(guild_id, profile_url)` as `check_stream_loop` calls it. -/
def updateConfigurationStatusByUrl (configs : List ConfigRow) (g : Nat)
    (url : String) (active : Bool) (msg : Option String) : List ConfigRow :=
  configs.map (fun r =>
    if r.guild_id == g && r.profile_url == url then
      { r with is_active := active, error_message := msg }
    else r)

/-! ## `_check_single_stream_status` and `_send_notification`
(notification_service.py 614-722)

The single-check path used by the main `_check_streams_loop`: classify the
probe result, write the new liveness through to `stream_status`
(line 655), optionally update the configuration status, and, when live,
call `_send_notification` — which reads the persisted status back
(lines 698-706) and skips the send when it reads live. -/

/-- Observable output of the single-check path. -/
structure SingleCheckResult where
  statuses : List StatusRow
  configs : List ConfigRow
  /-- the notification message was actually sent to the channel. -/
  sent : Bool
  deriving Repr, DecidableEq

/-- Embedding of `_send_notification` (notification_service.py 689-722): returns
whether the message reached the channel.  `channelFound` models
`bot.get_channel`; the dedup read uses the *current* `stream_status`
table. -/
def sendNotificationSingle (statuses : List StatusRow) (g : Nat) (p u : String)
    (channelFound : Bool) : Bool :=
  if !channelFound then false
  else
    match getStreamStatus statuses g p u with
    | some row => if row.is_live then false else true
    | none => true

/-- Embedding of `_check_single_stream_status` (notification_service.py 614-688) for
one configuration: the probe outcome is classified exactly as in the
source (dict / bare value / exception caught at line 647), the new state
is saved first, and `_send_notification` runs only when live. -/
def checkSingleStreamStatus (statuses : List StatusRow) (configs : List ConfigRow)
    (g : Nat) (p u : String) (r : CheckOutcome) (channelFound : Bool) :
    SingleCheckResult :=
  let cls : Bool × Option String × Bool :=
    match r with
    | .dict il err =>
      (il.getD false, err,
       !(strTruthy err && isUserNotFound (err.getD "")))
    | .plain b => (b, none, true)
    | .raised msg => (false, some msg, true)
  let is_live := cls.1
  let error_message := cls.2.1
  let is_active := cls.2.2
  let statuses1 := saveStreamState statuses g p u is_live
  let configs1 :=
    if !is_active || strTruthy error_message then
      updateConfigurationStatus configs g p u is_active error_message
    else configs
  let sent :=
    if is_live then sendNotificationSingle statuses1 g p u channelFound
    else false
  ⟨statuses1, configs1, sent⟩

/-! ## The task registry (notification_service.py 111-118, 414-497, 70-109)

`check_tasks` is a dict.  Running check tasks are registered under the
key built as guild id, colon, profile URL (lines 113, 419, 501, 522), while
`remove_configuration` (line 479) and `add_configuration` (line 561)
build the key as guild id, platform and username joined by underscores. -/

/-- Entry value in `check_tasks`; only the `done()` flag of the stored
task matters to the operations proved about. -/
structure TaskCell where
  done : Bool
  deriving Repr, DecidableEq

/-- Key scheme joining guild id and profile URL with a colon. -/
def colonTaskKey (g : Nat) (profile_url : String) : String :=
  toString g ++ ":" ++ profile_url

/-- Key scheme joining guild id, platform and username with underscores. -/
def underscoreTaskKey (g : Nat) (platform username : String) : String :=
  toString g ++ "_" ++ platform ++ "_" ++ username

/-- Embedding of `NotificationService.add_new_configuration` (notification_service.py
414-452): registers a fresh check task under the colon key unless one is
already present. -/
def addNewConfiguration (tasks : List (String × TaskCell)) (g : Nat)
    (profile_url : String) : List (String × TaskCell) :=
  let key := colonTaskKey g profile_url
  if tasks.any (fun e => e.1 == key) then tasks else tasks ++ [(key, ⟨false⟩)]

/-- Embedding of `NotificationService.remove_configuration` (notification_service.py
476-497): cancels and deletes the entry stored under the underscore key,
when present; returns whether anything was cancelled and removed. -/
def removeConfiguration (tasks : List (String × TaskCell)) (g : Nat)
    (username platform : String) : List (String × TaskCell) × Bool :=
  let key := underscoreTaskKey g platform username
  if tasks.any (fun e => e.1 == key) then
    (tasks.filter (fun e => !(e.1 == key)), true)
  else
    (tasks, false)

/-- Per-task bookkeeping `monitor_health` reads from a `check_tasks`
entry: `last_check` (seconds), `guild_id`, and the task's `done()` flag. -/
structure TaskInfo where
  last_check : Nat
  guild_id : Nat
  done : Bool
  deriving Repr, DecidableEq

/-- One entry of the `monitor_health` scan (notification_service.py
75-103): a task with no activity for more than 300 seconds is cancelled
(when not already done), and a replacement task is registered only when
some configuration has the same guild and a `profile_url` equal to
`task_key.split(':')[1]` — the second colon-separated segment of the key.
Returns the (possibly replaced) entry, whether the old task was
cancelled, and whether a fresh task was created. -/
def monitorScanEntry (now : Nat) (configs : List ConfigRow)
    (e : String × TaskInfo) : (String × TaskInfo) × Bool × Bool :=
  if 300 < now - e.2.last_check then
    let cancelled := !e.2.done
    match configs.find? (fun c =>
        c.guild_id == e.2.guild_id &&
        c.profile_url == (splitColon e.1).getD 1 "") with
    | some c => ((e.1, ⟨now, c.guild_id, false⟩), cancelled, true)
    | none => ((e.1, e.2), cancelled, false)
  else
    ((e.1, e.2), false, false)

/-- One full watchdog scan: every registered task is examined
independently. -/
def monitorScan (now : Nat) (configs : List ConfigRow)
    (tasks : List (String × TaskInfo)) :
    List ((String × TaskInfo) × Bool × Bool) :=
  tasks.map (monitorScanEntry now configs)

/-! ## `ConfigurationService.get_check_interval` (config_service.py 75-97)

The dict layers are kept as optional fields with the source's `.get`
defaults; the clock read `datetime.now().hour` becomes the explicit
`current_hour` argument. -/

/-- The `check_intervals` dict, every key optional. -/
structure CheckIntervals where
  live : Option Nat
  offline : Option Nat
  night : Option Nat
  deriving Repr, DecidableEq

/-- The `night_mode` dict, every key optional. -/
structure NightModeCfg where
  enabled : Option Bool
  start_hour : Option Nat
  end_hour : Option Nat
  deriving Repr, DecidableEq

/-- The slice of a stream configuration `get_check_interval` reads. -/
structure IntervalCfg where
  is_live : Option Bool
  check_intervals : Option CheckIntervals
  night_mode : Option NightModeCfg
  deriving Repr, DecidableEq

/-- Constant `DEFAULT_CHECK_INTERVALS` (config_service.py 14-18). -/
def defaultCheckIntervals : CheckIntervals :=
  ⟨some 1800, some 120, some 1800⟩

/-- Constant `DEFAULT_NIGHT_MODE` (config_service.py 20-24). -/
def defaultNightMode : NightModeCfg :=
  ⟨some false, some 20, some 8⟩

/-- Embedding of `get_check_interval` (config_service.py 75-97): install the default
intervals when missing, read the night-mode dict with its defaults,
compute `is_night = enabled and (hour >= start or hour < end)`, and pick
night over live over offline. -/
def getCheckInterval (cfg : IntervalCfg) (current_hour : Nat) : Nat :=
  let is_live := cfg.is_live.getD false
  let ci := cfg.check_intervals.getD defaultCheckIntervals
  let nm := cfg.night_mode.getD defaultNightMode
  let is_night := nm.enabled.getD false &&
    (decide (nm.start_hour.getD 20 ≤ current_hour) ||
     decide (current_hour < nm.end_hour.getD 8))
  if is_night then ci.night.getD 1800
  else if is_live then ci.live.getD 1800
  else ci.offline.getD 120

/-! ## Platform probes

Each probe's `is_stream_live` is embedded as a total function; the
observed network responses are data, and a raised exception travels as an
`Except.error` until the `try/except` of the source catches it.  The
probes return either a bare boolean or a result dict, so the return type
distinguishes the two. -/

/-- The dict some probe paths return; `is_live` is always present in the
source dicts, `error` only on failure paths (further metadata keys are
opaque to every consumer). -/
structure LiveDict where
  is_live : Bool
  error : Option String
  deriving Repr, DecidableEq

/-- A probe's return value: Python hands back either a bare boolean or a
dict. -/
inductive ProbeReturn
  | plain (b : Bool)
  | dict (d : LiveDict)
  deriving Repr, DecidableEq

/-- Whether a probe returned the structured dict shape. -/
def ProbeReturn.isDict : ProbeReturn → Bool
  | .plain _ => false
  | .dict _ => true

/-- The liveness a caller reads off a probe return: `bool(result)` for a
bare value, `result.get('is_live', False)` for a dict. -/
def liveRead : ProbeReturn → Bool
  | .plain b => b
  | .dict d => d.is_live

/-- Strips `pat` off the front of `l`, or fails. -/
def stripLead (pat : List Char) (l : List Char) : Option (List Char) :=
  match pat, l with
  | [], rest => some rest
  | _ :: _, [] => none
  | a :: as, b :: bs => if a == b then stripLead as bs else none

/-- Strips the first applicable pattern (the optional groups
`(?:https?://)?` and `(?:www\.)?` of the extraction regexes). -/
def stripFirst (pats : List (List Char)) (l : List Char) : List Char :=
  match pats with
  | [] => l
  | p :: ps =>
    match stripLead p l with
    | some r => r
    | none => stripFirst ps l

/-- Character class `[a-zA-Z0-9_]`. -/
def wordChar (c : Char) : Bool :=
  c.isAlpha || c.isDigit || c == '_'

/-- Embedding of `TwitchPlatform._extract_username` (twitch_platform.py 107-111):
`re.match` of `(?:https?://)?(?:www\.)?twitch\.tv/([a-zA-Z0-9_]+)`. -/
def twitchExtractUsername (url : String) : Option String :=
  let l := stripFirst [("https://").data, ("http://").data] url.data
  let l := stripFirst [("www.").data] l
  match stripLead ("twitch.tv/").data l with
  | none => none
  | some rest =>
    let name := rest.takeWhile wordChar
    if name.isEmpty then none else some ⟨name⟩

/-- Outcome of a `get_access_token` call (twitch_platform.py 22-46): a
non-200 status raises, and a network fault raises. -/
inductive TokenOutcome
  | ok
  | httpErr (code : Nat)
  | raised (msg : String)
  deriving Repr, DecidableEq

/-- Outcome of the `helix/users` request (twitch_platform.py 64-83);
`ok found` tells whether the `data` array was non-empty. -/
inductive UsersOutcome
  | ok (found : Bool)
  | unauthorized
  | httpErr (code : Nat)
  | raised (msg : String)
  deriving Repr, DecidableEq

/-- Outcome of the `helix/streams` request (twitch_platform.py 86-101);
`ok live` is `bool(stream_data.get('data'))`. -/
inductive StreamsOutcome
  | ok (live : Bool)
  | httpErr (code : Nat)
  | raised (msg : String)
  deriving Repr, DecidableEq

/-- The responses one attempt of `TwitchPlatform.is_stream_live` can
consume: a token fetch when the cached token is invalid, the users
request, the token refresh taken on a 401, and the streams request. -/
structure TwitchAttempt where
  token : TokenOutcome
  users : UsersOutcome
  retryToken : TokenOutcome
  streams : StreamsOutcome
  deriving Repr, DecidableEq

/-- Embedding of `TwitchPlatform.ensure_valid_token` (twitch_platform.py 48-51): a
missing or expired token triggers `get_access_token`, which raises on a
non-200 token response and on a network fault. -/
def twitchEnsureToken (tokenValid : Bool) (t : TokenOutcome) :
    Except String Unit :=
  if tokenValid then Except.ok ()
  else
    match t with
    | .ok => Except.ok ()
    | .httpErr c => Except.error ("Error getting Twitch token: " ++ toString c)
    | .raised m => Except.error m

/-- Body of the `try` block of `TwitchPlatform.is_stream_live`
(twitch_platform.py 53-101), one attempt per list element; the 401 branch
refreshes the token and re-enters the whole method (line 71), and an
exhausted attempt list is the `RecursionError` that unbounded re-entry
produces. -/
def twitchBody (tokenValid : Bool) (attempts : List TwitchAttempt)
    (url : String) : Except String ProbeReturn :=
  match attempts with
  | [] => Except.error "maximum recursion depth exceeded"
  | a :: rest =>
    match twitchEnsureToken tokenValid a.token with
    | .error m => Except.error m
    | .ok _ =>
      match twitchExtractUsername url with
      | none => Except.ok (.plain false)
      | some _ =>
        match a.users with
        | .unauthorized =>
          match a.retryToken with
          | .ok => twitchBody true rest url
          | .httpErr c =>
            Except.error ("Error getting Twitch token: " ++ toString c)
          | .raised m => Except.error m
        | .httpErr _ => Except.ok (.plain false)
        | .raised m => Except.error m
        | .ok false => Except.ok (.plain false)
        | .ok true =>
          match a.streams with
          | .httpErr _ => Except.ok (.plain false)
          | .raised m => Except.error m
          | .ok live => Except.ok (.plain live)

/-- Embedding of `TwitchPlatform.is_stream_live` (twitch_platform.py 53-105): the
`except` clause turns every exception of the body into a bare `False`. -/
def twitchIsStreamLive (tokenValid : Bool) (attempts : List TwitchAttempt)
    (url : String) : ProbeReturn :=
  match twitchBody tokenValid attempts url with
  | .ok v => v
  | .error _ => .plain false

/-- Character class `[a-zA-Z0-9_.]` of the TikTok extraction regex. -/
def tiktokNameChar (c : Char) : Bool :=
  c.isAlpha || c.isDigit || c == '_' || c == '.'

/-- The fallback pattern `@([a-zA-Z0-9_.]+)` of
`TikTokPlatform._extract_username`. -/
def tiktokAtName (url : String) : Option String :=
  match stripLead ("@").data url.data with
  | none => none
  | some rest =>
    let name := rest.takeWhile tiktokNameChar
    if name.isEmpty then none else some ⟨name⟩

/-- Embedding of `TikTokPlatform._extract_username` (tiktok_platform.py 224-235):
`re.match` of `(?:https?://)?(?:www\.)?tiktok\.com/@([a-zA-Z0-9_.]+)...`,
falling back to `@([a-zA-Z0-9_.]+)`. -/
def tiktokExtractUsername (url : String) : Option String :=
  let l := stripFirst [("https://").data, ("http://").data] url.data
  let l := stripFirst [("www.").data] l
  match stripLead ("tiktok.com/@").data l with
  | some rest =>
    let name := rest.takeWhile tiktokNameChar
    if name.isEmpty then tiktokAtName url else some ⟨name⟩
  | none => tiktokAtName url

/-- Outcome of `TikTokPlatform._get_room_id` (tiktok_platform.py 58-108)
at the HTTP boundary: the live page either yields a room id through one
of the scanned patterns, yields none, fails with a status, or raises —
the method's own `try/except` turns everything but `found` into `None`. -/
inductive RoomIdOutcome
  | found (id : String)
  | notFound
  | httpErr (code : Nat)
  | raised (msg : String)
  deriving Repr, DecidableEq

/-- Outcome of the webcast `check_alive` request inside
`TikTokPlatform._check_stream_status` (tiktok_platform.py 110-198). -/
inductive AliveOutcome
  | ok (alive : Bool)
  | httpErr (code : Nat)
  | raised (msg : String)
  deriving Repr, DecidableEq

/-- Embedding of `TikTokPlatform._check_stream_status` (tiktok_platform.py 110-198):
always returns a dict; a non-200 status and a raised exception both come
back as `is_live: False` with an `error` value. -/
def tiktokCheckStreamStatus (o : AliveOutcome) : LiveDict :=
  match o with
  | .ok alive => ⟨alive, none⟩
  | .httpErr c => ⟨false, some ("HTTP " ++ toString c)⟩
  | .raised m => ⟨false, some m⟩

/-- Embedding of `TikTokPlatform._get_room_id` with its cache (tiktok_platform.py
58-108): a cache hit short-circuits the page fetch. -/
def tiktokGetRoomId (cache : List (String × String)) (o : RoomIdOutcome)
    (username : String) : Option String :=
  match cache.find? (fun e => e.1 == username) with
  | some e => some e.2
  | none =>
    match o with
    | .found id => some id
    | _ => none

/-- Embedding of `TikTokPlatform.is_stream_live` (tiktok_platform.py 35-56): a failed
extraction or a missing room id returns the bare `False`; otherwise the
status dict of `_check_stream_status` is returned as-is. -/
def tiktokIsStreamLive (cache : List (String × String)) (room : RoomIdOutcome)
    (alive : AliveOutcome) (url : String) : ProbeReturn :=
  match tiktokExtractUsername url with
  | none => .plain false
  | some username =>
    match tiktokGetRoomId cache room username with
    | none => .plain false
    | some _ => .dict (tiktokCheckStreamStatus alive)

/-- Character class `[a-zA-Z0-9_-]` of the Kick extraction regex. -/
def kickNameChar (c : Char) : Bool :=
  c.isAlpha || c.isDigit || c == '_' || c == '-'

/-- Embedding of `KickPlatform._extract_username` (kick_platform.py 29-37):
`re.search` of `kick\.com/([a-zA-Z0-9_-]+)` — the first position where
the literal is followed by at least one name character. -/
def kickSearchName : List Char → Option String
  | [] => none
  | c :: cs =>
    match stripLead ("kick.com/").data (c :: cs) with
    | some rest =>
      let name := rest.takeWhile kickNameChar
      if name.isEmpty then kickSearchName cs else some ⟨name⟩
    | none => kickSearchName cs

/-- Outcome of the Kick channels API call inside
`KickPlatform._get_stream_data` (kick_platform.py 39-125): `ok present`
tells whether the JSON's `livestream` is non-null; a 403, an HTTP error
raised by `raise_for_status`, and any other exception each produce an
error dict inside the method. -/
inductive KickOutcome
  | ok (livestreamPresent : Bool)
  | forbidden
  | httpErr (code : Nat)
  | raised (msg : String)
  deriving Repr, DecidableEq

/-- Embedding of `KickPlatform._get_stream_data` (kick_platform.py 39-125): always
returns a dict. -/
def kickGetStreamData (o : KickOutcome) : LiveDict :=
  match o with
  | .ok present => ⟨present, none⟩
  | .forbidden => ⟨false, some "Access forbidden - possible Cloudflare block"⟩
  | .httpErr c => ⟨false, some ("HTTP error " ++ toString c)⟩
  | .raised m => ⟨false, some m⟩

/-- Embedding of `KickPlatform.is_stream_live` (kick_platform.py 13-27): reads
`data.get('is_live', False)` off the dict and returns that bare boolean;
a failed extraction or an exception returns `False`. -/
def kickIsStreamLive (o : KickOutcome) (url : String) : ProbeReturn :=
  match kickSearchName url.data with
  | none => .plain false
  | some _ => .plain (kickGetStreamData o).is_live

/-! ## Shared lemmas -/

/-- Evaluation of `check_stream_loop`'s tick on a dict result whose error
is the literal "user not found". -/
theorem tick_user_not_found (st : LoopStatus) :
    tick st (.dict (some false) (some "user not found")) =
      ⟨st, false, none, some "User not found: user not found", none, true⟩ := by
  have h1 : strTruthy (some "user not found") = true := by decide
  have h2 : isUserNotFound "user not found" = true := by decide
  simp [tick, h1, h2]

/-- The body of `TwitchPlatform.is_stream_live` only ever produces a bare
boolean. -/
theorem twitchBody_plain (attempts : List TwitchAttempt) :
    ∀ (tokenValid : Bool) (url : String) (r : ProbeReturn),
      twitchBody tokenValid attempts url = Except.ok r → ∃ b, r = .plain b := by
  induction attempts with
  | nil => intro tv url r h; simp [twitchBody] at h
  | cons a rest ih =>
    intro tv url r h
    unfold twitchBody at h
    repeat' split at h
    all_goals
      first
        | (injection h with h'; exact ⟨_, h'.symm⟩)
        | (exact ih true url r h)
        | (exact absurd h (by simp))

/-- A live reading can only leave the Twitch body through a streams
response that actually reported live. -/
theorem twitchBody_live_streams (attempts : List TwitchAttempt) :
    ∀ (tokenValid : Bool) (url : String),
      twitchBody tokenValid attempts url = Except.ok (.plain true) →
      ∃ a ∈ attempts, a.streams = StreamsOutcome.ok true := by
  induction attempts with
  | nil => intro tv url h; simp [twitchBody] at h
  | cons a rest ih =>
    intro tv url h
    unfold twitchBody at h
    repeat' split at h
    all_goals
      first
        | exact Except.noConfusion h
        | (injection h with h'
           injection h' with hb
           first
             | exact Bool.noConfusion hb
             | (subst hb
                exact ⟨a, List.mem_cons_self a rest, by assumption⟩))
        | (obtain ⟨a', ha', hs⟩ := ih true url h
           exact ⟨a', List.mem_cons_of_mem a ha', hs⟩)

/-! ## Claims -/

/-- C7: the check-interval policy is a pure function of
`(is_live, current_hour, night_mode, intervals)`; with night mode enabled
and the hour inside the configured window it yields the night interval
regardless of liveness, and otherwise the live interval when live and the
offline interval when not. -/
theorem claim_C7_interval_policy :
    ∀ (ci : CheckIntervals) (nm : NightModeCfg) (h : Nat) (il : Option Bool),
      (nm.enabled.getD false = true →
        (nm.start_hour.getD 20 ≤ h ∨ h < nm.end_hour.getD 8) →
        getCheckInterval ⟨il, some ci, some nm⟩ h = ci.night.getD 1800) ∧
      ((nm.enabled.getD false = false ∨
          (¬(nm.start_hour.getD 20 ≤ h) ∧ ¬(h < nm.end_hour.getD 8))) →
        getCheckInterval ⟨il, some ci, some nm⟩ h =
          if il.getD false then ci.live.getD 1800 else ci.offline.getD 120) := by
  intro ci nm h il
  constructor
  · intro hen hwin
    have hb : (nm.enabled.getD false &&
        (decide (nm.start_hour.getD 20 ≤ h) || decide (h < nm.end_hour.getD 8)))
          = true := by
      rw [hen, Bool.true_and, Bool.or_eq_true]
      rcases hwin with hw | hw
      · exact Or.inl (decide_eq_true hw)
      · exact Or.inr (decide_eq_true hw)
    simp [getCheckInterval, hb]
  · intro hoff
    have hb : (nm.enabled.getD false &&
        (decide (nm.start_hour.getD 20 ≤ h) || decide (h < nm.end_hour.getD 8)))
          = false := by
      rcases hoff with he | ⟨h1, h2⟩
      · rw [he, Bool.false_and]
      · rw [decide_eq_false h1, decide_eq_false h2, Bool.or_self, Bool.and_false]
    simp [getCheckInterval, hb]

/-- Witness for C7 at a concrete configuration: night hour 22 inside the
20-8 window yields the night interval whether live or not, and a disabled
night mode at a live entry yields the live interval. -/
theorem claim_C7_witness :
    getCheckInterval ⟨some true, some ⟨some 60, some 120, some 900⟩,
      some ⟨some true, some 20, some 8⟩⟩ 22 = 900 ∧
    getCheckInterval ⟨some false, some ⟨some 60, some 120, some 900⟩,
      some ⟨some true, some 20, some 8⟩⟩ 22 = 900 ∧
    getCheckInterval ⟨some true, some ⟨some 60, some 120, some 900⟩,
      some ⟨some false, some 20, some 8⟩⟩ 12 = 60 := by
  refine ⟨?_, ?_, ?_⟩
  · have := (claim_C7_interval_policy ⟨some 60, some 120, some 900⟩
      ⟨some true, some 20, some 8⟩ 22 (some true)).1 (by decide) (by decide)
    simpa using this
  · have := (claim_C7_interval_policy ⟨some 60, some 120, some 900⟩
      ⟨some true, some 20, some 8⟩ 22 (some false)).1 (by decide) (by decide)
    simpa using this
  · have := (claim_C7_interval_policy ⟨some 60, some 120, some 900⟩
      ⟨some false, some 20, some 8⟩ 12 (some true)).2 (Or.inl (by decide))
    simpa using this

/-- C2 counterexample: three consecutive timeouts from a fresh task sleep
60s, 120s and 240s — not the 30s, 60s and 120s the claim states — because
the error counter is incremented before the backoff formula reads it. -/
theorem claim_C2_counterexample :
    ((runLoop (initialLoopStatus none)
        [.raised "timed out", .raised "timed out", .raised "timed out"]).map
          (fun t => t.sleep) = [some 60, some 120, some 240]) ∧
    ¬((runLoop (initialLoopStatus none)
        [.raised "timed out", .raised "timed out", .raised "timed out"]).map
          (fun t => t.sleep) = [some 30, some 60, some 120]) := by
  decide

/-- C2 amended: after a failing tick the task sleeps
`min(30 * 2 ** consecutive_errors, 300)` where `consecutive_errors`
already counts the current failure, so three timeouts in a row sleep 60s,
120s and 240s, and any successful tick resets the counter to 0. -/
theorem claim_C2_backoff_amended :
    (∀ (st : LoopStatus) (msg : String), isUserNotFound msg = false →
        (tick st (.raised msg)).sleep =
          some (min (30 * 2 ^ (st.consecutive_errors + 1)) 300)) ∧
    ((runLoop (initialLoopStatus none)
        [.raised "timed out", .raised "timed out", .raised "timed out",
         .dict (some false) none]).map (fun t => t.sleep) =
      [some 60, some 120, some 240, some 30]) ∧
    (∀ (st : LoopStatus) (b : Bool),
        (tick st (.plain b)).status.consecutive_errors = 0) ∧
    (∀ (st : LoopStatus) (il : Option Bool),
        (tick st (.dict il none)).status.consecutive_errors = 0) := by
  refine ⟨fun st msg _ => rfl, by decide, fun st b => rfl, fun st il => rfl⟩

/-- Witness for C2 amended at a concrete timeout: the first backoff sleep
of a fresh task is 60 seconds. -/
theorem claim_C2_witness :
    isUserNotFound "Request timed out" = false ∧
    (tick (initialLoopStatus none) (.raised "Request timed out")).sleep =
      some (min (30 * 2 ^ (0 + 1)) 300) :=
  ⟨by decide,
   claim_C2_backoff_amended.1 (initialLoopStatus none) "Request timed out"
     (by decide)⟩

/-- C4: a (re)started check task seeds its liveness from the persisted
row's `is_live` rather than defaulting to false, so a task whose entry
was last persisted live never notifies on its first tick — whatever the
probe reports. -/
theorem claim_C4_persisted_initial_state :
    (∀ b : Bool, (initialLoopStatus (some b)).is_live = b) ∧
    (∀ r : CheckOutcome, (tick (initialLoopStatus (some true)) r).notified = false) := by
  constructor
  · intro b; rfl
  · intro r
    cases r with
    | raised m => rfl
    | plain b => simp [tick, successArm, initialLoopStatus]
    | dict il err =>
      by_cases he : strTruthy err = true
      · by_cases hn : isUserNotFound (err.getD "") = true
        · simp [tick, he, hn]
        · simp [tick, he, hn, errorArm]
      · simp [tick, he, successArm, initialLoopStatus]

/-- C1, evaluated at the failing input: on the `_check_single_stream_status`
path an offline→live edge (persisted liveness false, probe live) sends no
notification — the new liveness is saved at line 655 before
`_send_notification`'s dedup read at lines 698-706, which therefore sees
the stream as already live. -/
theorem claim_C1_single_check_suppressed :
    getStreamStatus [⟨1, "twitch", "x", false⟩] 1 "twitch" "x" =
      some ⟨1, "twitch", "x", false⟩ ∧
    (checkSingleStreamStatus [⟨1, "twitch", "x", false⟩] [] 1 "twitch" "x"
        (.dict (some true) none) true).sent = false ∧
    (checkSingleStreamStatus [⟨1, "twitch", "x", false⟩] [] 1 "twitch" "x"
        (.dict (some true) none) true).statuses =
      [⟨1, "twitch", "x", true⟩] := by
  decide

/-- C3: a probe result dict carrying is_live false and the error string
"user not found" makes the tick deactivate the configuration with the
error message recorded and
break out of the loop with no further ticks, and the updated registry's
active-configuration query (`get_all`, which filters on `is_active`)
no longer returns that entry. -/
theorem claim_C3_user_not_found_terminal :
    ∀ (st : LoopStatus) (rs : List CheckOutcome) (configs : List ConfigRow)
      (g : Nat) (url : String) (row : ConfigRow),
      (tick st (.dict (some false) (some "user not found"))).stopped = true ∧
      (tick st (.dict (some false) (some "user not found"))).deactivation =
        some "User not found: user not found" ∧
      runLoop st (.dict (some false) (some "user not found") :: rs) =
        [tick st (.dict (some false) (some "user not found"))] ∧
      (row ∈ configs → row.guild_id = g → row.profile_url = url →
        { row with is_active := false,
                   error_message := some "User not found: user not found" } ∈
          updateConfigurationStatusByUrl configs g url false
            (some "User not found: user not found")) ∧
      (∀ r ∈ sqliteGetAll (updateConfigurationStatusByUrl configs g url false
            (some "User not found: user not found")),
        ¬(r.guild_id = g ∧ r.profile_url = url)) := by
  intro st rs configs g url row
  refine ⟨?_, ?_, ?_, ?_, ?_⟩
  · rw [tick_user_not_found]
  · rw [tick_user_not_found]
  · simp [runLoop, tick_user_not_found]
  · intro hmem hg hu
    unfold updateConfigurationStatusByUrl
    refine List.mem_map.mpr ⟨row, hmem, ?_⟩
    simp [hg, hu]
  · intro r hr hkey
    unfold sqliteGetAll updateConfigurationStatusByUrl at hr
    obtain ⟨hmem, hact⟩ := List.mem_filter.mp hr
    obtain ⟨a, hamem, hfa⟩ := List.mem_map.mp hmem
    by_cases hc : (a.guild_id == g && a.profile_url == url) = true
    · rw [if_pos hc] at hfa
      rw [← hfa] at hact
      simp at hact
    · rw [if_neg hc] at hfa
      rw [← hfa] at hkey
      simp [hkey.1, hkey.2] at hc

/-- Witness for C3 at a one-row registry: the deactivated row is in the
updated registry, the tick stops the task, and the active query returns
nothing. -/
theorem claim_C3_witness :
    ((⟨1, "twitch", "x", "https://twitch.tv/x", "msg", false,
        some "User not found: user not found"⟩ : ConfigRow) ∈
      updateConfigurationStatusByUrl
        [⟨1, "twitch", "x", "https://twitch.tv/x", "msg", true, none⟩]
        1 "https://twitch.tv/x" false (some "User not found: user not found")) ∧
    (tick (initialLoopStatus none)
      (.dict (some false) (some "user not found"))).stopped = true := by
  have h := claim_C3_user_not_found_terminal (initialLoopStatus none) []
    [⟨1, "twitch", "x", "https://twitch.tv/x", "msg", true, none⟩]
    1 "https://twitch.tv/x"
    ⟨1, "twitch", "x", "https://twitch.tv/x", "msg", true, none⟩
  exact ⟨h.2.2.2.1 (by simp) rfl rfl, h.1⟩

/-- C5 counterexample: on a user-not-found Twitch response the probe
returns the bare boolean `False`, not the structured dict and not any
distinguished identity-not-found error value. -/
theorem claim_C5_counterexample :
    twitchIsStreamLive true [⟨.ok, .ok false, .ok, .ok false⟩]
      "https://twitch.tv/someuser" = .plain false ∧
    (twitchIsStreamLive true [⟨.ok, .ok false, .ok, .ok false⟩]
      "https://twitch.tv/someuser").isDict = false := by
  decide

/-- C5 amended: the probes do not share the structured result shape — the
Twitch and Kick probes return a bare boolean for every input (false for
user-not-found and faults alike), and the TikTok probe returns a bare
`False` on its failure paths and a dict only on the room-status path. -/
theorem claim_C5_probe_shapes :
    (∀ (tokenValid : Bool) (attempts : List TwitchAttempt) (url : String),
        ∃ b, twitchIsStreamLive tokenValid attempts url = .plain b) ∧
    (∀ (o : KickOutcome) (url : String),
        ∃ b, kickIsStreamLive o url = .plain b) ∧
    (∀ (cache : List (String × String)) (room : RoomIdOutcome)
        (alive : AliveOutcome) (url : String),
        tiktokIsStreamLive cache room alive url = .plain false ∨
        ∃ d, tiktokIsStreamLive cache room alive url = .dict d) := by
  refine ⟨?_, ?_, ?_⟩
  · intro tv atts url
    cases h : twitchBody tv atts url with
    | error m => exact ⟨false, by simp [twitchIsStreamLive, h]⟩
    | ok r =>
      obtain ⟨b, rfl⟩ := twitchBody_plain atts tv url r h
      exact ⟨b, by simp [twitchIsStreamLive, h]⟩
  · intro o url
    cases hk : kickSearchName url.data with
    | none => exact ⟨false, by simp [kickIsStreamLive, hk]⟩
    | some u => exact ⟨(kickGetStreamData o).is_live, by simp [kickIsStreamLive, hk]⟩
  · intro cache room alive url
    cases ht : tiktokExtractUsername url with
    | none => exact Or.inl (by simp [tiktokIsStreamLive, ht])
    | some u =>
      cases hr : tiktokGetRoomId cache room u with
      | none => exact Or.inl (by simp [tiktokIsStreamLive, ht, hr])
      | some rid =>
        exact Or.inr ⟨tiktokCheckStreamStatus alive,
          by simp [tiktokIsStreamLive, ht, hr]⟩

/-- C6 counterexample: `add_stream_config` on an existing
`(guild_id, platform, username)` key silently replaces the stored row
(`INSERT OR REPLACE`) instead of failing with a duplicate error. -/
theorem claim_C6_counterexample :
    addStreamConfig [⟨1, "twitch", "x", "https://twitch.tv/x", "old", true, none⟩]
      ⟨1, "twitch", "x", "https://twitch.tv/x", "new", true, none⟩ =
      [⟨1, "twitch", "x", "https://twitch.tv/x", "new", true, none⟩] ∧
    (⟨1, "twitch", "x", "https://twitch.tv/x", "new", true, none⟩ : ConfigRow) ≠
      ⟨1, "twitch", "x", "https://twitch.tv/x", "old", true, none⟩ := by
  decide

/-- C6 amended: `SQLiteDatabase.save` does fail on a duplicate key
(returns false, table unchanged), but `DatabaseService.add_stream_config`
replaces the existing row so that the new row is the only one left under
the key; deleting a nonexistent key returns false without an exception. -/
theorem claim_C6_registry_amended :
    (∀ (t : List ConfigRow) (cfg : ConfigRow),
        t.any (fun r => r.sameKey cfg) = true → sqliteSave t cfg = (t, false)) ∧
    (∀ (t : List ConfigRow) (cfg : ConfigRow),
        cfg ∈ addStreamConfig t cfg ∧
        ∀ r ∈ addStreamConfig t cfg, r.sameKey cfg = true → r = cfg) ∧
    (∀ (configs : List ConfigRow) (statuses : List StatusRow)
        (g : Nat) (p u : String),
        configs.any (fun r =>
          r.guild_id == g && r.platform == p && r.username == u) = false →
        deleteConfiguration configs statuses g p u =
          (configs, statuses, false)) := by
  refine ⟨?_, ?_, ?_⟩
  · intro t cfg h
    simp [sqliteSave, h]
  · intro t cfg
    constructor
    · simp [addStreamConfig]
    · intro r hr hk
      unfold addStreamConfig at hr
      rcases List.mem_append.mp hr with hl | hl
      · obtain ⟨hmem, hne⟩ := List.mem_filter.mp hl
        rw [hk] at hne
        simp at hne
      · simpa using hl
  · intro configs statuses g p u h
    simp [deleteConfiguration, h]

/-- Witness for C6 amended: a concrete duplicate save fails and leaves
the table alone, and deleting from an empty registry returns false. -/
theorem claim_C6_witness :
    sqliteSave [⟨1, "twitch", "x", "https://twitch.tv/x", "old", true, none⟩]
      ⟨1, "twitch", "x", "https://twitch.tv/x", "new", true, none⟩ =
      ([⟨1, "twitch", "x", "https://twitch.tv/x", "old", true, none⟩], false) ∧
    deleteConfiguration [] [] 1 "twitch" "ghost" = ([], [], false) :=
  ⟨claim_C6_registry_amended.1 _ _ (by decide),
   claim_C6_registry_amended.2.2 [] [] 1 "twitch" "ghost" (by decide)⟩

/-- C8, evaluated at the failing input: a check task registered under the
colon key `"1:https://twitch.tv/x"` is not found by
`remove_configuration`, which looks up the underscore key
`"1_twitch_x"` — the task is neither cancelled nor deregistered. -/
theorem claim_C8_remove_leaves_task_running :
    addNewConfiguration [] 1 "https://twitch.tv/x" =
      [(colonTaskKey 1 "https://twitch.tv/x", ⟨false⟩)] ∧
    removeConfiguration (addNewConfiguration [] 1 "https://twitch.tv/x")
        1 "x" "twitch" =
      (addNewConfiguration [] 1 "https://twitch.tv/x", false) := by
  decide

/-- C9, evaluated at the failing input: the watchdog scan cancels the
stale task but spawns no replacement even though a matching active
configuration exists, because `task_key.split(':')[1]` yields `"https"`
for any `http(s)` profile URL and the configuration lookup never
matches. -/
theorem claim_C9_watchdog_cancels_without_respawn :
    monitorScan 1000
      [⟨1, "twitch", "x", "https://twitch.tv/x", "msg", true, none⟩]
      [("1:https://twitch.tv/x", ⟨0, 1, false⟩)] =
      [(("1:https://twitch.tv/x", ⟨0, 1, false⟩), true, false)] ∧
    (splitColon "1:https://twitch.tv/x").getD 1 "" = "https" := by
  decide

/-- C10: every probe fails closed — the liveness a caller reads is false
unless the platform genuinely reported live, and every raised exception is
converted to a normal return (bare `False` or an error dict) instead of
propagating. -/
theorem claim_C10_probes_fail_closed :
    (∀ (tokenValid : Bool) (attempts : List TwitchAttempt) (url : String),
        (∀ a ∈ attempts, a.streams ≠ StreamsOutcome.ok true) →
        liveRead (twitchIsStreamLive tokenValid attempts url) = false) ∧
    (∀ (tokenValid : Bool) (attempts : List TwitchAttempt) (url m : String),
        twitchBody tokenValid attempts url = Except.error m →
        twitchIsStreamLive tokenValid attempts url = .plain false) ∧
    (∀ (cache : List (String × String)) (room : RoomIdOutcome)
        (alive : AliveOutcome) (url : String),
        alive ≠ AliveOutcome.ok true →
        liveRead (tiktokIsStreamLive cache room alive url) = false) ∧
    (∀ (cache : List (String × String)) (room : RoomIdOutcome) (url m : String),
        tiktokIsStreamLive cache room (.raised m) url = .plain false ∨
        tiktokIsStreamLive cache room (.raised m) url = .dict ⟨false, some m⟩) ∧
    (∀ (o : KickOutcome) (url : String),
        o ≠ KickOutcome.ok true → liveRead (kickIsStreamLive o url) = false) ∧
    (∀ (url m : String), kickIsStreamLive (.raised m) url = .plain false) := by
  refine ⟨?_, ?_, ?_, ?_, ?_, ?_⟩
  · intro tv atts url hno
    cases h : twitchBody tv atts url with
    | error m => simp [twitchIsStreamLive, h, liveRead]
    | ok r =>
      obtain ⟨b, rfl⟩ := twitchBody_plain atts tv url r h
      cases b with
      | false => simp [twitchIsStreamLive, h, liveRead]
      | true =>
        obtain ⟨a, ha, hs⟩ := twitchBody_live_streams atts tv url h
        exact absurd hs (hno a ha)
  · intro tv atts url m h
    simp [twitchIsStreamLive, h]
  · intro cache room alive url hne
    cases ht : tiktokExtractUsername url with
    | none => simp [tiktokIsStreamLive, ht, liveRead]
    | some u =>
      cases hr : tiktokGetRoomId cache room u with
      | none => simp [tiktokIsStreamLive, ht, hr, liveRead]
      | some rid =>
        cases alive with
        | ok a =>
          cases a with
          | false => simp [tiktokIsStreamLive, ht, hr, liveRead, tiktokCheckStreamStatus]
          | true => exact absurd rfl hne
        | httpErr c => simp [tiktokIsStreamLive, ht, hr, liveRead, tiktokCheckStreamStatus]
        | raised msg => simp [tiktokIsStreamLive, ht, hr, liveRead, tiktokCheckStreamStatus]
  · intro cache room url m
    cases ht : tiktokExtractUsername url with
    | none => exact Or.inl (by simp [tiktokIsStreamLive, ht])
    | some u =>
      cases hr : tiktokGetRoomId cache room u with
      | none => exact Or.inl (by simp [tiktokIsStreamLive, ht, hr])
      | some rid =>
        exact Or.inr (by simp [tiktokIsStreamLive, ht, hr, tiktokCheckStreamStatus])
  · intro o url hne
    cases hk : kickSearchName url.data with
    | none => simp [kickIsStreamLive, hk, liveRead]
    | some u =>
      cases o with
      | ok p =>
        cases p with
        | false => simp [kickIsStreamLive, hk, liveRead, kickGetStreamData]
        | true => exact absurd rfl hne
      | forbidden => simp [kickIsStreamLive, hk, liveRead, kickGetStreamData]
      | httpErr c => simp [kickIsStreamLive, hk, liveRead, kickGetStreamData]
      | raised msg => simp [kickIsStreamLive, hk, liveRead, kickGetStreamData]
  · intro url m
    cases hk : kickSearchName url.data with
    | none => simp [kickIsStreamLive, hk]
    | some u => simp [kickIsStreamLive, hk, kickGetStreamData]

/-- Witness for C10 at concrete faults: an HTTP 500 on the Twitch streams
request, an HTTP 500 on the TikTok alive check, and a Cloudflare 403 on
Kick all read as offline. -/
theorem claim_C10_witness :
    liveRead (twitchIsStreamLive true [⟨.ok, .ok true, .ok, .httpErr 500⟩]
      "https://twitch.tv/a") = false ∧
    liveRead (tiktokIsStreamLive [] (.found "123") (.httpErr 500)
      "https://tiktok.com/@a") = false ∧
    liveRead (kickIsStreamLive .forbidden "https://kick.com/a") = false :=
  ⟨claim_C10_probes_fail_closed.1 true _ _ (by decide),
   claim_C10_probes_fail_closed.2.2.1 [] _ _ _ (by decide),
   claim_C10_probes_fail_closed.2.2.2.2.1 _ _ (by decide)⟩

end StreamRadar
